import Mathlib

/-!
Shallow embedding of the dataset-comparison helpers of this repository
(`Financial/df_compare.py`, `Financial/finance_helper.py`,
`MLOps/Data/zenml_helper.py`) and proofs about the spec's claims.

Machine-level conventions:
* a pandas `DataFrame` is modelled by the `DataFrame` structure below:
  a row index (`PIndex`, which keeps the pandas index *kind* — `PeriodIndex`,
  `DatetimeIndex` or a plain index — because pandas index equality and
  `assert_frame_equal` are sensitive to it), an ordered list of column
  identifiers (hierarchical ids are tuples, modelled as `List String`),
  a declared dtype per column, and row-major cells; a missing cell is `none`
  (pandas treats two NaN at the same location as equal, which structural
  equality on `Option Val` captures);
* numeric cell values are `Rat` under a single constructor, so that the
  pandas behaviour `1 == 1.0` (values of int64 and float64 columns compare
  equal elementwise) is preserved while declared dtypes stay distinct;
* Python exceptions are `PyError`; a function that can raise returns
  `Except PyError _`; `print` output is not part of any claim and is dropped
  except where a printed line is the observable outcome (the identical /
  different headline becomes `Report.identical`, each diagnostic print
  becomes a `Finding`).
-/

/-- Python exception values that the embedded code can raise. -/
inductive PyError
  | valueError (msg : String)
  | nameError (nm : String)
  | typeError (msg : String)
  | zeroDivisionError
deriving DecidableEq, Repr

/-- An interval period: a key of a pandas `PeriodIndex`.  `start` is the
start instant of the span, `span` its length; `Period.to_timestamp()`
(default `how='start'`) yields the start instant. -/
structure Period where
  start : Int
  span : Nat
deriving DecidableEq, Repr

/-- A pandas row index, keeping the index kind: `periodIdx` is a
`PeriodIndex`, `dtIdx` a `DatetimeIndex` (keys are instants), `rawIdx`
any other plain index with integer keys. -/
inductive PIndex
  | periodIdx (ks : List Period)
  | dtIdx (ks : List Int)
  | rawIdx (ks : List Int)
deriving DecidableEq, Repr

/-- An index element as pandas compares elements: a Period, a Timestamp and
a plain int are pairwise unequal values. -/
inductive Label
  | per (p : Period)
  | ts (t : Int)
  | raw (n : Int)
deriving DecidableEq, Repr

def PIndex.labels : PIndex → List Label
  | .periodIdx ks => ks.map Label.per
  | .dtIdx ks => ks.map Label.ts
  | .rawIdx ks => ks.map Label.raw

def PIndex.length (i : PIndex) : Nat := i.labels.length

/-- `Index.equals`: same elements in the same order (index *kind* only
matters through the elements, so two empty indexes of different kinds are
equal, as in pandas). -/
def PIndex.equalsB (a b : PIndex) : Bool := a.labels = b.labels

/-- `isinstance(index, pd.PeriodIndex)`. -/
def PIndex.isPeriod : PIndex → Bool
  | .periodIdx _ => true
  | _ => false

/-- `PeriodIndex.to_timestamp()`: every period key becomes its start
instant and the index becomes a `DatetimeIndex`.  (Only ever called on a
`PeriodIndex` in the source; other kinds pass through.) -/
def PIndex.toTimestampIdx : PIndex → PIndex
  | .periodIdx ks => .dtIdx (ks.map Period.start)
  | i => i

/-- A column identifier; hierarchical (multi-level) columns are tuples of
level values. -/
abbrev Col := List String

/-- A cell value: numbers compare across int64/float64 the way pandas
compares them (by numeric value), everything else by value. -/
inductive Val
  | num (q : Rat)
  | str (s : String)
deriving DecidableEq, Repr

/-- The in-memory dataset: row index, ordered columns, declared dtype per
column, and row-major cells (`none` = missing/NaN). -/
structure DataFrame where
  idx : PIndex
  cols : List Col
  dtypes : List String
  cells : List (List (Option Val))
deriving DecidableEq, Repr

/-- `df.shape`: (number of rows, number of columns). -/
def DataFrame.shape (d : DataFrame) : Nat × Nat := (d.idx.length, d.cols.length)

/-- Well-formedness pandas guarantees by construction: one cell row per
index key, one cell and one dtype per column. -/
def DataFrame.wf (d : DataFrame) : Bool :=
  d.cells.length = d.idx.length
    && d.cells.all (fun row => row.length = d.cols.length)
    && d.dtypes.length = d.cols.length

/-- One diagnostic fact printed by `compare_dataframes` after the headline. -/
inductive Finding
  | shapeMismatch (sa sb : Nat × Nat)
  | indexMismatch (ia ib : PIndex)
  | columnMismatch (ca cb : List Col)
  | typeMismatch (cs : List Col)
  | valueMismatch (row : Label) (col : Col) (va vb : Option Val)
  | overflowMsg
deriving DecidableEq, Repr

/-- The observable outcome of one comparison call: the identical/different
headline plus the diagnostic findings printed after it. -/
structure Report where
  identical : Bool
  findings : List Finding
deriving DecidableEq, Repr

/-- Step 1 of the analysis: `if df1.shape != df2.shape`. -/
def shapeFindings (df1 df2 : DataFrame) : List Finding :=
  if df1.shape ≠ df2.shape then [Finding.shapeMismatch df1.shape df2.shape] else []

/-- Step 2: `if not df1.index.equals(df2.index)`. -/
def indexFindings (df1 df2 : DataFrame) : List Finding :=
  if ¬ (df1.idx.equalsB df2.idx) then [Finding.indexMismatch df1.idx df2.idx] else []

/-- Step 3: `if not df1.columns.equals(df2.columns)`. -/
def columnFindings (df1 df2 : DataFrame) : List Finding :=
  if df1.cols ≠ df2.cols then [Finding.columnMismatch df1.cols df2.cols] else []

/-- `df1_dtypes.index[df1_dtypes != df2_dtypes]`: the columns at the
positions where the two dtype sequences disagree (only evaluated when the
two column sequences are identical, otherwise the Series comparison has
already raised). -/
def dtypeDiffCols : List Col → List String → List String → List Col
  | c :: cs, x :: xs, y :: ys =>
      (if x = y then [] else [c]) ++ dtypeDiffCols cs xs ys
  | _, _, _ => []

/-- Step 4 of the analysis, the dtype comparison:
`if not df1_dtypes.equals(df2_dtypes): diff_cols = df1_dtypes.index[df1_dtypes != df2_dtypes]`.
`Series.equals` never raises; the comparison `df1_dtypes != df2_dtypes`
raises `ValueError` when the two Series are not identically labeled, i.e.
when the column sequences differ — and this `ValueError` is *not* caught
by `compare_dataframes` (its inner `try` only guards `df1.compare`). -/
def schemaStage (df1 df2 : DataFrame) : Except PyError (List Finding) :=
  if df1.cols = df2.cols ∧ df1.dtypes = df2.dtypes then
    .ok []
  else if df1.cols ≠ df2.cols then
    .error (.valueError "Can only compare identically-labeled Series objects")
  else
    .ok [Finding.typeMismatch (dtypeDiffCols df1.cols df1.dtypes df2.dtypes)]

/-- The differing cells of one aligned row, in column order, as printed by
`df1.compare(df2)` for identically-labeled frames. -/
def rowFindings (k : Label) : List Col → List (Option Val) → List (Option Val) → List Finding
  | c :: cs, va :: vas, vb :: vbs =>
      (if va = vb then [] else [Finding.valueMismatch k c va vb]) ++ rowFindings k cs vas vbs
  | _, _, _ => []

/-- All differing cells in row-major order. -/
def cellFindingsAux (cols : List Col) :
    List Label → List (List (Option Val)) → List (List (Option Val)) → List Finding
  | k :: ks, ra :: ras, rb :: rbs =>
      rowFindings k cols ra rb ++ cellFindingsAux cols ks ras rbs
  | _, _, _ => []

/-- The element-wise difference listing `df1.compare(df2)` produces when it
does not raise. -/
def cellDiffFindings (df1 df2 : DataFrame) : List Finding :=
  cellFindingsAux df1.cols df1.idx.labels df1.cells df2.cells

/-- Step 5 of the analysis:
`try: diff = df1.compare(df2) ... except ValueError: print("Too many ...")`.
`DataFrame.compare` raises `ValueError` exactly when the two frames are not
identically labeled (row index or columns differ); that `ValueError` *is*
caught and turned into the summary line, modelled as `Finding.overflowMsg`.
When the frames are identically labeled, every differing cell is printed. -/
def cellStage (df1 df2 : DataFrame) : List Finding :=
  if df1.idx.equalsB df2.idx ∧ df1.cols = df2.cols then
    cellDiffFindings df1 df2
  else
    [Finding.overflowMsg]

/-- `compare_dataframes(df1, df2)` (`Financial/df_compare.py`, lines 4-59):
`tm.assert_frame_equal` succeeds exactly on structurally equal frames
(values, index incl. kind, columns, dtypes) and then only the identical
headline is printed; otherwise the `AssertionError` is caught and the five
analysis steps run, except that step 4's Series comparison can raise an
uncaught `ValueError` (see `schemaStage`). -/
def compare_dataframes (df1 df2 : DataFrame) : Except PyError Report :=
  if df1 = df2 then
    .ok { identical := true, findings := [] }
  else
    match schemaStage df1 df2 with
    | .error e => .error e
    | .ok tfs =>
        .ok { identical := false,
              findings := shapeFindings df1 df2 ++ indexFindings df1 df2
                ++ columnFindings df1 df2 ++ tfs ++ cellStage df1 df2 }

/-- The index normalization performed inside `compare_dfs` (lines 93-100):
when `to_timestamp` is set and the frame's index is a `PeriodIndex`, cast
it to a `DatetimeIndex`; otherwise leave the frame as it is. -/
def normalizeIdx (df : DataFrame) (to_timestamp : Bool) : DataFrame :=
  if to_timestamp && df.idx.isPeriod then
    { df with idx := df.idx.toTimestampIdx }
  else
    df

/-- `compare_dfs(df1, df2, to_timestamp=True)` (lines 64-103): `None`
checks, normalization of comparator-owned copies, then
`compare_dataframes` on the copies. -/
def compare_dfs (df1 df2 : Option DataFrame) (to_timestamp : Bool) :
    Except PyError Report :=
  match df1 with
  | none => .error (.valueError "df1 cannot be None")
  | some d1 =>
    match df2 with
    | none => .error (.valueError "df2 cannot be None")
    | some d2 => compare_dataframes (normalizeIdx d1 to_timestamp) (normalizeIdx d2 to_timestamp)

/-- `compare_dfs` with the caller's variables made explicit: the function
assigns indexes only on `df1.copy()` / `df2.copy()` (lines 89-91), so the
caller-visible bindings after the call are the unmodified inputs, returned
here alongside the result. -/
def compare_dfs_prog (df1 df2 : Option DataFrame) (to_timestamp : Bool) :
    (Option DataFrame × Option DataFrame) × Except PyError Report :=
  ((df1, df2), compare_dfs df1 df2 to_timestamp)

/-- `cmp_dfs(df1, df2, to_timestamp=True)` (lines 119-157) with the
caller's objects made explicit.  Unlike `compare_dfs`, it takes no copy:
`df1.index = df1.index.to_timestamp()` mutates the caller's object, so the
first component returns the post-call state of the two arguments.  The body
then only prints the identical / different headline. -/
def cmp_dfs_prog (df1 df2 : Option DataFrame) (to_timestamp : Bool) :
    (Option DataFrame × Option DataFrame) × Except PyError Report :=
  match df1 with
  | none => ((df1, df2), .error (.valueError "df1 cannot be None"))
  | some d1 =>
    match df2 with
    | none => ((df1, df2), .error (.valueError "df2 cannot be None"))
    | some d2 =>
        let d1' := if to_timestamp && d1.idx.isPeriod then
                     { d1 with idx := d1.idx.toTimestampIdx } else d1
        let d2' := if to_timestamp && d2.idx.isPeriod then
                     { d2 with idx := d2.idx.toTimestampIdx } else d2
        ((some d1', some d2'),
          .ok { identical := d1' = d2', findings := [] })

/-- The identical flag of a comparison outcome: `some flag` when a report
was produced, `none` when the call raised. -/
def identicalFlag : Except PyError Report → Option Bool
  | .ok r => some r.identical
  | .error _ => none

/-- The findings of a comparison outcome (empty when the call raised). -/
def reportFindings : Except PyError Report → List Finding
  | .ok r => r.findings
  | .error _ => []

def Finding.isVM : Finding → Bool
  | .valueMismatch _ _ _ _ => true
  | _ => false

def Finding.isOv : Finding → Bool
  | .overflowMsg => true
  | _ => false

/-- Number of individual `ValueMismatch` findings in a list. -/
def countVM (fs : List Finding) : Nat := (fs.filter Finding.isVM).length

/-- Number of `Overflow` summary findings in a list. -/
def countOv (fs : List Finding) : Nat := (fs.filter Finding.isOv).length

/-- Number of differing cell pairs of one row (positional). -/
def pairDiffCount : List (Option Val) → List (Option Val) → Nat
  | a :: as_, b :: bs => (if a = b then 0 else 1) + pairDiffCount as_ bs
  | _, _ => 0

/-- Number of differing cells of two cell matrices (positional, row-major). -/
def rowsDiffCount : List (List (Option Val)) → List (List (Option Val)) → Nat
  | ra :: ras, rb :: rbs => pairDiffCount ra rb + rowsDiffCount ras rbs
  | _, _ => 0

/-- The number of cells at which two frames disagree (the ground truth the
spec's overflow claim counts). -/
def numDiffCells (df1 df2 : DataFrame) : Nat := rowsDiffCount df1.cells df2.cells

/-- The error payload of an outcome, if any. -/
def errOf {α : Type} : Except PyError α → Option PyError
  | .error e => some e
  | .ok _ => none

/-- The module-level numeric bindings of `Financial/finance_helper.py`:
none exist — the module binds only `pd`, `np` and the two functions, so any
numeric name looked up at module scope is unbound. -/
def moduleNumericGlobals : List (String × Rat) := []

/-- Python name resolution for a name that is not a local or a parameter:
look it up in the module globals; an unbound name raises `NameError`. -/
def globalLookup (nm : String) : Except PyError Rat :=
  match moduleNumericGlobals.lookup nm with
  | some v => .ok v
  | none => .error (.nameError nm)

/-- `calculate_cumulative_inflation_implied_inflation`
(`Financial/finance_helper.py`, lines 4-47).  The guard
`principal_value is None or cumulative_inflation is None or current_value is None`
short-circuits: with `principal_value = None` it raises the `ValueError`;
otherwise evaluating the unbound name `cumulative_inflation` raises
`NameError` before anything else runs.  The remainder of the body (dead
code under an empty global table) is kept for faithfulness; its arithmetic
uses `n : Nat` since the reachable part never touches `n`. -/
def calculate_cumulative_inflation_implied_inflation
    (principal_value current_value implied_inflation : Option Rat)
    (n : Nat) : Except PyError Unit :=
  if principal_value.isNone then
    .error (.valueError "principal_value, current_value and cumulative_inflation cannot be none! ")
  else
    match globalLookup "cumulative_inflation" with
    | .error e => .error e
    | .ok _ci =>
      if current_value.isNone then
        .error (.valueError "principal_value, current_value and cumulative_inflation cannot be none! ")
      else
        match principal_value, implied_inflation with
        | some PV, some i =>
          let FV := PV * (1 + i) ^ n
          match globalLookup "avg_current_price" with
          | .error e => .error e
          | .ok avg =>
            let _diff := avg - FV
            .ok ()
        | some _PV, none =>
          .error (.typeError "unsupported operand type for +: int and NoneType")
        | none, _ =>
          .error (.typeError "unreachable: guard ensured principal_value is not None")

/-- `calculate_cumulative_inflation` (`Financial/finance_helper.py`,
lines 52-97).  All three guarded names are parameters here; past the guard,
`FV = PV / cumulative_inflation` raises `ZeroDivisionError` on a zero
divisor, and otherwise `diff = avg_current_price - FV` raises `NameError`
(`avg_current_price` is unbound). -/
def calculate_cumulative_inflation
    (principal_value current_value cumulative_inflation : Option Rat) :
    Except PyError Unit :=
  if principal_value.isNone || cumulative_inflation.isNone || current_value.isNone then
    .error (.valueError "principal_value, current_value and cumulative_inflation cannot be none! ")
  else
    match principal_value, cumulative_inflation with
    | some PV, some ci =>
      if ci = 0 then .error .zeroDivisionError
      else
        let FV := PV / ci
        match globalLookup "avg_current_price" with
        | .error e => .error e
        | .ok avg =>
          let _diff := avg - FV
          .ok ()
    | _, _ =>
      .error (.typeError "unreachable: guard ensured both are not None")

/-- True exactly when the outcome is a raised `NameError`. -/
def raisesNameError : Except PyError Unit → Bool
  | .error (.nameError _) => true
  | _ => false

/-- True exactly when the call completed without raising. -/
def pyCompletes : Except PyError Unit → Bool
  | .ok _ => true
  | .error _ => false

/-- `DataStrategy.__init__` (`MLOps/Data/zenml_helper.py`, lines 19-22):
`self.strategy = strategy or []` — both `None` and an empty list (falsy)
leave an empty strategy list. -/
structure DataStrategy where
  strategy : List (DataFrame → DataFrame)

def DataStrategy.init
    (strategy : Option (List (DataFrame → DataFrame))) : DataStrategy :=
  match strategy with
  | none => ⟨[]⟩
  | some l => if l.isEmpty then ⟨[]⟩ else ⟨l⟩

/-- The `for func in self.strategy: data = func(data)` loop shared by the
three `handle_data` bodies: apply the listed functions strictly left to
right. -/
def applyStrategies : List (DataFrame → DataFrame) → DataFrame → DataFrame
  | [], d => d
  | f :: fs, d => applyStrategies fs (f d)

/-- The `pd.DataFrame({'A': [1, 2, 3], 'B': [4, 5, 6]})` default frame of
`DataLoading.handle_data`. -/
def defaultLoadedFrame : DataFrame :=
  { idx := .rawIdx [0, 1, 2],
    cols := [["A"], ["B"]],
    dtypes := ["int64", "int64"],
    cells := [[some (.num 1), some (.num 4)],
              [some (.num 2), some (.num 5)],
              [some (.num 3), some (.num 6)]] }

/-- `DataLoading.handle_data` (lines 33-41): load the default frame when
`data is None`, then run the strategy loop. -/
def DataLoading.handle_data (self : DataStrategy) (data : Option DataFrame) :
    DataFrame :=
  match data with
  | none => applyStrategies self.strategy defaultLoadedFrame
  | some d => applyStrategies self.strategy d

/-- `DataTransformation.handle_data` (lines 44-52): the strategy loop. -/
def DataTransformation.handle_data (self : DataStrategy) (data : DataFrame) :
    DataFrame :=
  applyStrategies self.strategy data

/-- `DataCleaning.handle_data` (lines 55-63): the strategy loop. -/
def DataCleaning.handle_data (self : DataStrategy) (data : DataFrame) :
    DataFrame :=
  applyStrategies self.strategy data

/-- Left-to-right composition of a list of transforms (`[f, g]` composes to
`g after f`): the spec-side reading of the strategy loop. -/
def composeLR (fs : List (DataFrame → DataFrame)) : DataFrame → DataFrame :=
  fs.foldl (fun g f => f ∘ g) id

theorem countVM_append (xs ys : List Finding) :
    countVM (xs ++ ys) = countVM xs + countVM ys := by
  simp [countVM, List.filter_append]

theorem countOv_append (xs ys : List Finding) :
    countOv (xs ++ ys) = countOv xs + countOv ys := by
  simp [countOv, List.filter_append]

theorem normalizeIdx_cols (d : DataFrame) (cfg : Bool) :
    (normalizeIdx d cfg).cols = d.cols := by
  unfold normalizeIdx
  by_cases h : (cfg && d.idx.isPeriod) = true
  · rw [if_pos h]
  · rw [if_neg h]

theorem toTimestampIdx_not_period (i : PIndex) :
    i.toTimestampIdx.isPeriod = false := by
  cases i <;> simp [PIndex.toTimestampIdx, PIndex.isPeriod]

theorem normalizeIdx_eq_self_iff (d : DataFrame) (cfg : Bool) :
    normalizeIdx d cfg = d ↔ (cfg && d.idx.isPeriod) = false := by
  constructor
  · intro h
    by_contra hc
    rw [Bool.not_eq_false] at hc
    unfold normalizeIdx at h
    rw [if_pos hc] at h
    have hidx : d.idx.toTimestampIdx = d.idx := congrArg DataFrame.idx h
    have hp : d.idx.isPeriod = true := (Bool.and_eq_true _ _ |>.mp hc).2
    cases hi : d.idx with
    | periodIdx ks =>
        rw [hi] at hidx
        simp [PIndex.toTimestampIdx] at hidx
    | dtIdx ks => rw [hi] at hp; simp [PIndex.isPeriod] at hp
    | rawIdx ks => rw [hi] at hp; simp [PIndex.isPeriod] at hp
  · intro h
    unfold normalizeIdx
    rw [if_neg (by simp [h])]

theorem compare_dataframes_flag (a b : DataFrame) :
    identicalFlag (compare_dataframes a b) =
      if a = b then some true else if a.cols = b.cols then some false else none := by
  unfold compare_dataframes schemaStage
  by_cases h : a = b
  · simp [h, identicalFlag]
  · by_cases hc : a.cols = b.cols
    · by_cases hd : a.dtypes = b.dtypes
      · simp [h, hc, hd, identicalFlag]
      · simp [h, hc, hd, identicalFlag]
    · simp [h, hc, identicalFlag]

theorem compare_dataframes_err (a b : DataFrame) :
    errOf (compare_dataframes a b) =
      if a.cols = b.cols then none
      else some (.valueError "Can only compare identically-labeled Series objects") := by
  unfold compare_dataframes schemaStage
  by_cases h : a = b
  · subst h; simp [errOf]
  · by_cases hc : a.cols = b.cols
    · by_cases hd : a.dtypes = b.dtypes
      · simp [h, hc, hd, errOf]
      · simp [h, hc, hd, errOf]
    · simp [h, hc, errOf]

theorem pairDiffCount_self (l : List (Option Val)) : pairDiffCount l l = 0 := by
  induction l with
  | nil => rfl
  | cons a as ih => simp [pairDiffCount, ih]

theorem rowsDiffCount_self (l : List (List (Option Val))) : rowsDiffCount l l = 0 := by
  induction l with
  | nil => rfl
  | cons r rs ih => simp [rowsDiffCount, pairDiffCount_self, ih]

theorem countVM_rowFindings (k : Label) (cols : List Col)
    (ra rb : List (Option Val)) (h : ra.length ≤ cols.length) :
    countVM (rowFindings k cols ra rb) = pairDiffCount ra rb := by
  induction ra generalizing cols rb with
  | nil =>
      cases cols <;> cases rb <;> simp [rowFindings, pairDiffCount, countVM]
  | cons va vas ih =>
      cases rb with
      | nil => cases cols <;> simp [rowFindings, pairDiffCount, countVM]
      | cons vb vbs =>
          cases cols with
          | nil => simp at h
          | cons c cs =>
              rw [rowFindings, countVM_append, pairDiffCount]
              have hlen : vas.length ≤ cs.length := by
                simpa using h
              rw [ih cs vbs hlen]
              by_cases hv : va = vb
              · simp [hv, countVM]
              · simp [hv, countVM, Finding.isVM]

theorem countOv_rowFindings (k : Label) (cols : List Col)
    (ra rb : List (Option Val)) :
    countOv (rowFindings k cols ra rb) = 0 := by
  induction ra generalizing cols rb with
  | nil => cases cols <;> cases rb <;> simp [rowFindings, countOv]
  | cons va vas ih =>
      cases rb with
      | nil => cases cols <;> simp [rowFindings, countOv]
      | cons vb vbs =>
          cases cols with
          | nil => simp [rowFindings, countOv]
          | cons c cs =>
              rw [rowFindings, countOv_append, ih cs vbs]
              by_cases hv : va = vb
              · simp [hv, countOv]
              · simp [hv, countOv, Finding.isOv]

theorem countVM_cellFindingsAux (cols : List Col) (ks : List Label)
    (ras rbs : List (List (Option Val)))
    (hlen : ras.length ≤ ks.length)
    (hrow : ∀ ra ∈ ras, ra.length ≤ cols.length) :
    countVM (cellFindingsAux cols ks ras rbs) = rowsDiffCount ras rbs := by
  induction ras generalizing ks rbs with
  | nil => cases ks <;> cases rbs <;> simp [cellFindingsAux, rowsDiffCount, countVM]
  | cons ra ras ih =>
      cases rbs with
      | nil => cases ks <;> simp [cellFindingsAux, rowsDiffCount, countVM]
      | cons rb rbs =>
          cases ks with
          | nil => simp at hlen
          | cons k ks =>
              rw [cellFindingsAux, countVM_append, rowsDiffCount]
              have h1 : ra.length ≤ cols.length := hrow ra (by simp)
              have h2 : ∀ r ∈ ras, r.length ≤ cols.length := by
                intro r hr; exact hrow r (by simp [hr])
              have h3 : ras.length ≤ ks.length := by simpa using hlen
              rw [countVM_rowFindings k cols ra rb h1, ih ks rbs h3 h2]

theorem countOv_cellFindingsAux (cols : List Col) (ks : List Label)
    (ras rbs : List (List (Option Val))) :
    countOv (cellFindingsAux cols ks ras rbs) = 0 := by
  induction ras generalizing ks rbs with
  | nil => cases ks <;> cases rbs <;> simp [cellFindingsAux, countOv]
  | cons ra ras ih =>
      cases rbs with
      | nil => cases ks <;> simp [cellFindingsAux, countOv]
      | cons rb rbs =>
          cases ks with
          | nil => simp [cellFindingsAux, countOv]
          | cons k ks =>
              rw [cellFindingsAux, countOv_append, ih ks rbs,
                countOv_rowFindings k cols ra rb]

theorem dtypeDiffCols_subset (cols : List Col) (xs ys : List String) :
    ∀ c ∈ dtypeDiffCols cols xs ys, c ∈ cols := by
  induction cols generalizing xs ys with
  | nil => intro c hc; simp [dtypeDiffCols] at hc
  | cons c0 cs ih =>
      intro c hc
      cases xs with
      | nil => simp [dtypeDiffCols] at hc
      | cons x xs =>
          cases ys with
          | nil => simp [dtypeDiffCols] at hc
          | cons y ys =>
              rw [dtypeDiffCols] at hc
              rcases List.mem_append.mp hc with h | h
              · by_cases hxy : x = y
                · simp [hxy] at h
                · simp [hxy] at h; simp [h]
              · exact List.mem_cons_of_mem _ (ih xs ys c h)

theorem dtypeDiffCols_mem_of_ne (cols : List Col) (xs ys : List String)
    (i : Nat) (h1 : i < cols.length) (h2 : i < xs.length) (h3 : i < ys.length)
    (hne : xs.get ⟨i, h2⟩ ≠ ys.get ⟨i, h3⟩) :
    cols.get ⟨i, h1⟩ ∈ dtypeDiffCols cols xs ys := by
  induction cols generalizing xs ys i with
  | nil => simp at h1
  | cons c0 cs ih =>
      cases xs with
      | nil => simp at h2
      | cons x xs =>
          cases ys with
          | nil => simp at h3
          | cons y ys =>
              cases i with
              | zero =>
                  simp only [List.get] at hne ⊢
                  rw [dtypeDiffCols]
                  rw [if_neg hne]
                  simp
              | succ j =>
                  simp only [List.get] at hne ⊢
                  rw [dtypeDiffCols]
                  apply List.mem_append.mpr
                  right
                  exact ih xs ys j (by simpa using h1) (by simpa using h2)
                    (by simpa using h3) hne

theorem applyStrategies_foldl (fs : List (DataFrame → DataFrame))
    (g : DataFrame → DataFrame) (d : DataFrame) :
    (fs.foldl (fun g f => f ∘ g) g) d = applyStrategies fs (g d) := by
  induction fs generalizing g d with
  | nil => rfl
  | cons f fs ih =>
      rw [List.foldl_cons, applyStrategies]
      exact ih (f ∘ g) d

theorem applyStrategies_eq_composeLR (fs : List (DataFrame → DataFrame))
    (d : DataFrame) : applyStrategies fs d = composeLR fs d := by
  unfold composeLR
  rw [applyStrategies_foldl fs id d]
  rfl

instance exceptDecEq {ε α : Type} [DecidableEq ε] [DecidableEq α] :
    DecidableEq (Except ε α) := fun a b =>
  match a, b with
  | .ok x, .ok y =>
      if h : x = y then .isTrue (by rw [h])
      else .isFalse (by intro hc; cases hc; exact h rfl)
  | .ok _, .error _ => .isFalse (by intro hc; cases hc)
  | .error _, .ok _ => .isFalse (by intro hc; cases hc)
  | .error e, .error f =>
      if h : e = f then .isTrue (by rw [h])
      else .isFalse (by intro hc; cases hc; exact h rfl)

/-- C3: comparing a dataset with itself under the default config
(`to_timestamp=True`) yields a report with `identical = true` and zero
findings: `assert_frame_equal` succeeds on the two (identically normalized)
copies and only the identical headline is printed. -/
theorem claim3_identity (d : DataFrame) :
    compare_dfs (some d) (some d) true = .ok { identical := true, findings := [] } := by
  show compare_dataframes (normalizeIdx d true) (normalizeIdx d true) = _
  unfold compare_dataframes
  rw [if_pos rfl]

/-- C7: index normalization is idempotent — normalizing an
already-normalized frame changes nothing, for every frame and both values
of the `to_timestamp` flag (a `PeriodIndex` becomes a `DatetimeIndex`,
which is no longer a `PeriodIndex`, so a second pass is the identity). -/
theorem claim7_normalize_idempotent (d : DataFrame) (cfg : Bool) :
    normalizeIdx (normalizeIdx d cfg) cfg = normalizeIdx d cfg := by
  by_cases h : (cfg && d.idx.isPeriod) = true
  · have h1 : normalizeIdx d cfg = { d with idx := d.idx.toTimestampIdx } := by
      unfold normalizeIdx; rw [if_pos h]
    rw [h1]
    apply (normalizeIdx_eq_self_iff _ _).mpr
    simp [toTimestampIdx_not_period]
  · have h1 : normalizeIdx d cfg = d :=
      (normalizeIdx_eq_self_iff d cfg).mpr (by simpa using h)
    rw [h1, h1]

/-- C8: symmetry of detection — for every pair of (possibly null)
dataset arguments and every config, the identical flag of comparing `a`
with `b` equals that of comparing `b` with `a` (`some flag` when a report
is produced; `none` when the call raises, which also happens
symmetrically). -/
theorem claim8_symmetry (a b : Option DataFrame) (cfg : Bool) :
    identicalFlag (compare_dfs a b cfg) = identicalFlag (compare_dfs b a cfg) := by
  cases a with
  | none =>
      cases b with
      | none => rfl
      | some d2 => rfl
  | some d1 =>
      cases b with
      | none => rfl
      | some d2 =>
          show identicalFlag (compare_dataframes (normalizeIdx d1 cfg) (normalizeIdx d2 cfg))
            = identicalFlag (compare_dataframes (normalizeIdx d2 cfg) (normalizeIdx d1 cfg))
          rw [compare_dataframes_flag, compare_dataframes_flag]
          exact if_congr eq_comm rfl (if_congr eq_comm rfl rfl)

/-- C6: the normalizer contract — with the flag set and a period row
index, normalization replaces every index key by its start-instant
timestamp and leaves cells, columns and declared dtypes unchanged; in
every other case (flag unset, or index not period-kind) the frame passes
through unchanged.  The function is total, so it never raises. -/
theorem claim6_normalizer :
    (∀ (d : DataFrame) (ks : List Period), d.idx = .periodIdx ks →
        (normalizeIdx d true).idx = .dtIdx (ks.map Period.start) ∧
        (normalizeIdx d true).idx.labels = ks.map (fun p => Label.ts p.start) ∧
        (normalizeIdx d true).cols = d.cols ∧
        (normalizeIdx d true).dtypes = d.dtypes ∧
        (normalizeIdx d true).cells = d.cells) ∧
    (∀ (d : DataFrame) (cfg : Bool),
        (cfg && d.idx.isPeriod) = false → normalizeIdx d cfg = d) := by
  constructor
  · intro d ks hidx
    have hcond : (true && d.idx.isPeriod) = true := by
      rw [hidx]; rfl
    have h1 : normalizeIdx d true = { d with idx := d.idx.toTimestampIdx } := by
      unfold normalizeIdx; rw [if_pos hcond]
    rw [h1]
    refine ⟨?_, ?_, rfl, rfl, rfl⟩
    · simp [hidx, PIndex.toTimestampIdx]
    · simp [hidx, PIndex.toTimestampIdx, PIndex.labels, List.map_map]
  · intro d cfg h
    exact (normalizeIdx_eq_self_iff d cfg).mpr h

def c6Frame : DataFrame :=
  { idx := .periodIdx [⟨100, 1⟩, ⟨101, 1⟩],
    cols := [["price"]],
    dtypes := ["float64"],
    cells := [[some (.num 10)], [some (.num 20)]] }

/-- Witness for C6 at a concrete two-row period-indexed frame. -/
theorem claim6_witness :
    (normalizeIdx c6Frame true).idx = .dtIdx [100, 101] ∧
    normalizeIdx c6Frame false = c6Frame := by
  constructor
  · have h := (claim6_normalizer.1 c6Frame [⟨100, 1⟩, ⟨101, 1⟩] rfl).1
    rw [h]
    rfl
  · exact claim6_normalizer.2 c6Frame false (by decide)

/-- C10: a `DataStrategy` built with no strategy argument or an empty
list has an empty strategy list, and then every `handle_data` returns its
(non-null) input unchanged; in general each `handle_data` applies the
strategy functions strictly left to right, i.e. computes the left-to-right
composition of the listed transforms. -/
theorem claim10_strategy_composition :
    (∀ d : DataFrame,
        DataTransformation.handle_data (DataStrategy.init none) d = d ∧
        DataTransformation.handle_data (DataStrategy.init (some [])) d = d ∧
        DataCleaning.handle_data (DataStrategy.init none) d = d ∧
        DataCleaning.handle_data (DataStrategy.init (some [])) d = d ∧
        DataLoading.handle_data (DataStrategy.init none) (some d) = d ∧
        DataLoading.handle_data (DataStrategy.init (some [])) (some d) = d) ∧
    (∀ (fs : List (DataFrame → DataFrame)) (d : DataFrame),
        DataTransformation.handle_data ⟨fs⟩ d = composeLR fs d ∧
        DataCleaning.handle_data ⟨fs⟩ d = composeLR fs d ∧
        DataLoading.handle_data ⟨fs⟩ (some d) = composeLR fs d) := by
  constructor
  · intro d
    exact ⟨rfl, rfl, rfl, rfl, rfl, rfl⟩
  · intro fs d
    refine ⟨?_, ?_, ?_⟩ <;>
      simp [DataTransformation.handle_data, DataCleaning.handle_data,
        DataLoading.handle_data, applyStrategies_eq_composeLR]

def c2FrameA : DataFrame :=
  { idx := .dtIdx [0], cols := [["a"]], dtypes := ["int64"],
    cells := [[some (.num 1)]] }

def c2FrameB : DataFrame :=
  { idx := .dtIdx [9], cols := [["b"]], dtypes := ["int64"],
    cells := [[some (.num 2)]] }

/-- C2 counterexample: two non-null datasets with disjoint column sets
(and disjoint row-index sets) make the comparison entry point raise.
`compare_dfs` reaches step 4 of `compare_dataframes`, where
`df1.dtypes != df2.dtypes` on non-identically-labeled Series raises an
uncaught `ValueError`, so no Report is returned — contradicting the
claim that the call raises only when an argument is null. -/
theorem claim2_counterexample :
    errOf (compare_dfs (some c2FrameA) (some c2FrameB) true) =
      some (.valueError "Can only compare identically-labeled Series objects") := by
  decide

/-- C2 amended: the entry point raises exactly when an argument is null
*or* when the two datasets' column sequences differ (the dtype-comparison
`ValueError` of step 4, uncaught); with identical column sequences every
pair of non-null datasets — including pairs with disjoint row-index sets —
returns a Report, with disagreements only as findings. -/
theorem claim2_amended :
    (∀ (b : Option DataFrame) (cfg : Bool),
        compare_dfs none b cfg = .error (.valueError "df1 cannot be None")) ∧
    (∀ (a : DataFrame) (cfg : Bool),
        compare_dfs (some a) none cfg = .error (.valueError "df2 cannot be None")) ∧
    (∀ (a b : DataFrame) (cfg : Bool), a.cols = b.cols →
        ∃ r : Report, compare_dfs (some a) (some b) cfg = .ok r) ∧
    (∀ (a b : DataFrame) (cfg : Bool), a.cols ≠ b.cols →
        compare_dfs (some a) (some b) cfg =
          .error (.valueError "Can only compare identically-labeled Series objects")) := by
  refine ⟨fun b cfg => rfl, fun a cfg => rfl, ?_, ?_⟩
  · intro a b cfg hc
    have hcols : (normalizeIdx a cfg).cols = (normalizeIdx b cfg).cols := by
      rw [normalizeIdx_cols, normalizeIdx_cols, hc]
    have herr := compare_dataframes_err (normalizeIdx a cfg) (normalizeIdx b cfg)
    rw [if_pos hcols] at herr
    show ∃ r, compare_dataframes (normalizeIdx a cfg) (normalizeIdx b cfg) = .ok r
    cases hcd : compare_dataframes (normalizeIdx a cfg) (normalizeIdx b cfg) with
    | ok r => exact ⟨r, rfl⟩
    | error e => rw [hcd] at herr; simp [errOf] at herr
  · intro a b cfg hc
    have hcols : (normalizeIdx a cfg).cols ≠ (normalizeIdx b cfg).cols := by
      rw [normalizeIdx_cols, normalizeIdx_cols]; exact hc
    have herr := compare_dataframes_err (normalizeIdx a cfg) (normalizeIdx b cfg)
    rw [if_neg hcols] at herr
    show compare_dataframes (normalizeIdx a cfg) (normalizeIdx b cfg) = _
    cases hcd : compare_dataframes (normalizeIdx a cfg) (normalizeIdx b cfg) with
    | ok r => rw [hcd] at herr; simp [errOf] at herr
    | error e =>
        rw [hcd] at herr
        simp only [errOf, Option.some_inj] at herr
        rw [herr]

/-- Witness for C2 at concrete frames: equal columns give a Report, the
disjoint-column pair gives the `ValueError`. -/
theorem claim2_witness :
    (∃ r : Report, compare_dfs (some c2FrameA) (some c2FrameA) true = .ok r) ∧
    compare_dfs (some c2FrameA) (some c2FrameB) true =
      .error (.valueError "Can only compare identically-labeled Series objects") :=
  ⟨claim2_amended.2.2.1 c2FrameA c2FrameA true rfl,
   claim2_amended.2.2.2 c2FrameA c2FrameB true (by decide)⟩

def c4Frame : DataFrame :=
  { idx := .periodIdx [⟨0, 1⟩], cols := [["price"]], dtypes := ["int64"],
    cells := [[some (.num 10)]] }

/-- C4 counterexample: `cmp_dfs` performs the period-to-timestamp
normalization directly on the caller's objects (no `.copy()`), so after
the call the caller-supplied dataset with a period index and
`to_timestamp=True` is changed — contradicting the claim that both
caller-supplied datasets are unchanged after every comparison call. -/
theorem claim4_counterexample :
    (cmp_dfs_prog (some c4Frame) (some c4Frame) true).1.1 ≠ some c4Frame := by
  decide

/-- C4 amended: `compare_dfs` operates on copies and leaves both
caller-supplied datasets unchanged for every input and config; `cmp_dfs`
leaves the caller's dataset in its normalized state, which differs from
the original exactly when the flag is set and the index is a
`PeriodIndex`. -/
theorem claim4_amended :
    (∀ (a b : Option DataFrame) (cfg : Bool),
        (compare_dfs_prog a b cfg).1 = (a, b)) ∧
    (∀ (d1 d2 : DataFrame) (cfg : Bool),
        (cmp_dfs_prog (some d1) (some d2) cfg).1 =
          (some (normalizeIdx d1 cfg), some (normalizeIdx d2 cfg))) ∧
    (∀ (d : DataFrame) (cfg : Bool),
        normalizeIdx d cfg = d ↔ (cfg && d.idx.isPeriod) = false) := by
  exact ⟨fun a b cfg => rfl, fun d1 d2 cfg => rfl, normalizeIdx_eq_self_iff⟩

theorem countVM_shapeFindings (a b : DataFrame) : countVM (shapeFindings a b) = 0 := by
  unfold shapeFindings
  by_cases h : a.shape ≠ b.shape <;> simp [h, countVM, Finding.isVM]

theorem countOv_shapeFindings (a b : DataFrame) : countOv (shapeFindings a b) = 0 := by
  unfold shapeFindings
  by_cases h : a.shape ≠ b.shape <;> simp [h, countOv, Finding.isOv]

theorem countVM_indexFindings (a b : DataFrame) : countVM (indexFindings a b) = 0 := by
  unfold indexFindings
  by_cases h : a.idx.equalsB b.idx <;> simp [h, countVM, Finding.isVM]

theorem countOv_indexFindings (a b : DataFrame) : countOv (indexFindings a b) = 0 := by
  unfold indexFindings
  by_cases h : a.idx.equalsB b.idx <;> simp [h, countOv, Finding.isOv]

theorem countVM_columnFindings (a b : DataFrame) : countVM (columnFindings a b) = 0 := by
  unfold columnFindings
  by_cases h : a.cols ≠ b.cols <;> simp [h, countVM, Finding.isVM]

theorem countOv_columnFindings (a b : DataFrame) : countOv (columnFindings a b) = 0 := by
  unfold columnFindings
  by_cases h : a.cols ≠ b.cols <;> simp [h, countOv, Finding.isOv]

theorem schemaStage_ok_of_cols_eq (a b : DataFrame) (hc : a.cols = b.cols) :
    ∃ tfs, schemaStage a b = .ok tfs ∧ countVM tfs = 0 ∧ countOv tfs = 0 := by
  unfold schemaStage
  by_cases hd : a.dtypes = b.dtypes
  · exact ⟨[], by rw [if_pos ⟨hc, hd⟩], rfl, rfl⟩
  · refine ⟨[Finding.typeMismatch (dtypeDiffCols a.cols a.dtypes b.dtypes)], ?_, rfl, rfl⟩
    rw [if_neg (fun hand => hd hand.2), if_neg (fun hn => hn hc)]

theorem countVM_cellDiffFindings (a b : DataFrame) (hwa : a.wf = true) :
    countVM (cellDiffFindings a b) = numDiffCells a b := by
  have hw : (a.cells.length = a.idx.length
      ∧ ∀ row ∈ a.cells, row.length = a.cols.length)
      ∧ a.dtypes.length = a.cols.length := by
    simpa [DataFrame.wf, List.all_eq_true, Bool.and_eq_true,
      decide_eq_true_eq] using hwa
  unfold cellDiffFindings numDiffCells
  apply countVM_cellFindingsAux
  · rw [hw.1.1]
    exact Nat.le_of_eq rfl
  · intro ra hra
    exact Nat.le_of_eq (hw.1.2 ra hra)

theorem countOv_cellDiffFindings (a b : DataFrame) :
    countOv (cellDiffFindings a b) = 0 := by
  unfold cellDiffFindings
  exact countOv_cellFindingsAux a.cols a.idx.labels a.cells b.cells

def c1FrameA : DataFrame :=
  { idx := .dtIdx [0, 1], cols := [["price"]], dtypes := ["int64"],
    cells := [[some (.num 10)], [some (.num 20)]] }

def c1FrameB : DataFrame :=
  { idx := .dtIdx [0, 1], cols := [["price"]], dtypes := ["int64"],
    cells := [[some (.num 11)], [some (.num 21)]] }

/-- C1 counterexample: the code exposes no `max_reported_diffs` ceiling.
Instantiating the claim at ceiling `k = 1`: these identically-labeled
frames differ in exactly `k + 1 = 2` cells, so the claim requires exactly
one Overflow finding carrying total 2 and zero ValueMismatch findings —
but the code reports both cells as ValueMismatch findings and no Overflow
finding (and the same happens for every value of the supposed ceiling,
since the cell stage never counts). -/
theorem claim1_counterexample :
    numDiffCells c1FrameA c1FrameB = 2 ∧
    countVM (reportFindings (compare_dfs (some c1FrameA) (some c1FrameB) true)) = 2 ∧
    countOv (reportFindings (compare_dfs (some c1FrameA) (some c1FrameB) true)) = 0 := by
  decide

/-- C1 amended: there is no configurable diff ceiling.  For well-formed
datasets with identical row labels and identical column sequences the cell
stage emits one `ValueMismatch` per differing cell — however many — and
never an Overflow finding; when the column sequences agree but the row
labels differ, `df1.compare` raises a caught `ValueError` and the report
carries exactly one Overflow summary finding and zero `ValueMismatch`
findings (with differing column sequences the call raises before the cell
stage, see C2). -/
theorem claim1_amended :
    (∀ a b : DataFrame, a.wf = true → b.wf = true →
        a.idx.labels = b.idx.labels → a.cols = b.cols →
          countVM (reportFindings (compare_dataframes a b)) = numDiffCells a b ∧
          countOv (reportFindings (compare_dataframes a b)) = 0) ∧
    (∀ a b : DataFrame, a.cols = b.cols → a.idx.labels ≠ b.idx.labels →
          countOv (reportFindings (compare_dataframes a b)) = 1 ∧
          countVM (reportFindings (compare_dataframes a b)) = 0) := by
  constructor
  · intro a b hwa hwb hlab hcols
    by_cases heq : a = b
    · subst heq
      unfold compare_dataframes
      rw [if_pos rfl]
      simp [reportFindings, countVM, countOv, numDiffCells, rowsDiffCount_self]
    · obtain ⟨tfs, hss, hvm0, hov0⟩ := schemaStage_ok_of_cols_eq a b hcols
      have hcell : cellStage a b = cellDiffFindings a b := by
        unfold cellStage
        rw [if_pos ⟨by unfold PIndex.equalsB; simp [hlab], hcols⟩]
      unfold compare_dataframes
      rw [if_neg heq, hss]
      simp only [reportFindings]
      rw [countVM_append, countVM_append, countVM_append, countVM_append,
        countOv_append, countOv_append, countOv_append, countOv_append,
        countVM_shapeFindings, countVM_indexFindings, countVM_columnFindings,
        countOv_shapeFindings, countOv_indexFindings, countOv_columnFindings,
        hvm0, hov0, hcell, countVM_cellDiffFindings a b hwa,
        countOv_cellDiffFindings]
      simp
  · intro a b hcols hlab
    have heq : a ≠ b := fun h => hlab (by rw [h])
    obtain ⟨tfs, hss, hvm0, hov0⟩ := schemaStage_ok_of_cols_eq a b hcols
    have hcell : cellStage a b = [Finding.overflowMsg] := by
      unfold cellStage
      rw [if_neg]
      intro hand
      apply hlab
      have := hand.1
      unfold PIndex.equalsB at this
      simpa using this
    unfold compare_dataframes
    rw [if_neg heq, hss]
    simp only [reportFindings]
    rw [countVM_append, countVM_append, countVM_append, countVM_append,
      countOv_append, countOv_append, countOv_append, countOv_append,
      countVM_shapeFindings, countVM_indexFindings, countVM_columnFindings,
      countOv_shapeFindings, countOv_indexFindings, countOv_columnFindings,
      hvm0, hov0, hcell]
    simp [countVM, countOv, Finding.isVM, Finding.isOv]

def c1FrameC : DataFrame :=
  { idx := .dtIdx [0], cols := [["price"]], dtypes := ["int64"],
    cells := [[some (.num 10)]] }

def c1FrameD : DataFrame :=
  { idx := .dtIdx [5], cols := [["price"]], dtypes := ["int64"],
    cells := [[some (.num 10)]] }

/-- Witness for C1: the mismatch-per-cell part at the two-diff pair and
the overflow part at a label-mismatched pair. -/
theorem claim1_witness :
    (countVM (reportFindings (compare_dataframes c1FrameA c1FrameB)) =
        numDiffCells c1FrameA c1FrameB ∧
      countOv (reportFindings (compare_dataframes c1FrameA c1FrameB)) = 0) ∧
    (countOv (reportFindings (compare_dataframes c1FrameC c1FrameD)) = 1 ∧
      countVM (reportFindings (compare_dataframes c1FrameC c1FrameD)) = 0) :=
  ⟨claim1_amended.1 c1FrameA c1FrameB (by decide) (by decide) (by decide) rfl,
   claim1_amended.2 c1FrameC c1FrameD rfl (by decide)⟩

/-- C9 counterexample: with all parameters supplied as non-`None` values
but `cumulative_inflation = 0`, `calculate_cumulative_inflation` raises
`ZeroDivisionError` at `FV = PV / cumulative_inflation` — not a
`NameError` — so the claim that every fully-supplied invocation raises a
`NameError` is false at this input. -/
theorem claim9_counterexample :
    calculate_cumulative_inflation (some 100) (some 150) (some 0) =
      .error .zeroDivisionError ∧
    raisesNameError (calculate_cumulative_inflation (some 100) (some 150) (some 0))
      = false := by
  decide

/-- C9 amended: neither function can ever reach its final output.
`calculate_cumulative_inflation_implied_inflation` raises `NameError`
(unbound `cumulative_inflation` in its guard) whenever `principal_value`
is supplied; `calculate_cumulative_inflation` with all parameters supplied
raises `NameError` (unbound `avg_current_price`) when the divisor is
non-zero and `ZeroDivisionError` when it is zero; and for *every* input
whatsoever, both functions raise before completing. -/
theorem claim9_amended :
    (∀ (pv cv ii : Option Rat) (n : Nat), pv.isSome = true →
        calculate_cumulative_inflation_implied_inflation pv cv ii n =
          .error (.nameError "cumulative_inflation")) ∧
    (∀ p c ci : Rat, ci ≠ 0 →
        calculate_cumulative_inflation (some p) (some c) (some ci) =
          .error (.nameError "avg_current_price")) ∧
    (∀ p c : Rat,
        calculate_cumulative_inflation (some p) (some c) (some 0) =
          .error .zeroDivisionError) ∧
    (∀ (pv cv ii : Option Rat) (n : Nat),
        pyCompletes (calculate_cumulative_inflation_implied_inflation pv cv ii n)
          = false) ∧
    (∀ pv cv ci : Option Rat,
        pyCompletes (calculate_cumulative_inflation pv cv ci) = false) := by
  refine ⟨?_, ?_, ?_, ?_, ?_⟩
  · intro pv cv ii n h
    cases pv with
    | none => simp [Option.isSome] at h
    | some v => rfl
  · intro p c ci h
    simp only [calculate_cumulative_inflation, Option.isNone_some, Bool.or_self,
      Bool.false_or, Bool.or_false]
    simp [h, globalLookup, moduleNumericGlobals]
  · intro p c
    rfl
  · intro pv cv ii n
    cases pv with
    | none => rfl
    | some v => rfl
  · intro pv cv ci
    cases pv with
    | none => rfl
    | some p =>
      cases ci with
      | none => rfl
      | some c =>
        cases cv with
        | none => rfl
        | some v =>
          by_cases hc : c = 0
          · subst hc; rfl
          · simp [calculate_cumulative_inflation, hc, globalLookup,
              moduleNumericGlobals, pyCompletes]

/-- Witness for C9: the `NameError` outcomes at concrete non-`None`
inputs. -/
theorem claim9_witness :
    calculate_cumulative_inflation_implied_inflation
        (some 100) (some 150) (some (1 / 50)) 10 =
      .error (.nameError "cumulative_inflation") ∧
    calculate_cumulative_inflation (some 100) (some 150) (some 2) =
      .error (.nameError "avg_current_price") :=
  ⟨claim9_amended.1 (some 100) (some 150) (some (1 / 50)) 10 rfl,
   claim9_amended.2.1 100 150 2 (by norm_num)⟩

def c5FrameA : DataFrame :=
  { idx := .dtIdx [0], cols := [["a"], ["b"]], dtypes := ["int64", "int64"],
    cells := [[some (.num 1), some (.num 2)]] }

def c5FrameB : DataFrame :=
  { idx := .dtIdx [0], cols := [["a"]], dtypes := ["int64"],
    cells := [[some (.num 1)]] }

/-- C5 counterexample: two unequal datasets whose column sets overlap but
differ (`[a, b]` vs `[a]`) make the type-mismatch stage raise an uncaught
`ValueError` instead of comparing declared types over the intersection —
contradicting the claim that the stage never raises regardless of how the
two column sets differ. -/
theorem claim5_counterexample :
    errOf (compare_dataframes c5FrameA c5FrameB) =
      some (.valueError "Can only compare identically-labeled Series objects") := by
  decide

/-- C5 amended: the type-mismatch stage runs its comparison only when the
two column sequences are identical — it does not restrict itself to the
intersection; in that case it never raises, every column it reports is
present in both datasets, and the column at each position whose declared
types differ is reported; when the column sequences differ the stage
raises `ValueError` (so it never emits a finding for a column absent from
either side, but not by comparing the intersection). -/
theorem claim5_amended :
    (∀ a b : DataFrame, errOf (schemaStage a b) = none ↔ a.cols = b.cols) ∧
    (∀ (a b : DataFrame) (fs : List Finding), schemaStage a b = .ok fs →
        ∀ cs : List Col, Finding.typeMismatch cs ∈ fs →
          ∀ c ∈ cs, c ∈ a.cols ∧ c ∈ b.cols) ∧
    (∀ (cols : List Col) (xs ys : List String) (i : Nat)
        (h1 : i < cols.length) (h2 : i < xs.length) (h3 : i < ys.length),
        xs.get ⟨i, h2⟩ ≠ ys.get ⟨i, h3⟩ →
          cols.get ⟨i, h1⟩ ∈ dtypeDiffCols cols xs ys) := by
  refine ⟨?_, ?_, dtypeDiffCols_mem_of_ne⟩
  · intro a b
    unfold schemaStage
    by_cases hc : a.cols = b.cols
    · by_cases hd : a.dtypes = b.dtypes
      · simp [hc, hd, errOf]
      · simp [hc, hd, errOf]
    · simp [hc, errOf]
  · intro a b fs hok cs hmem c hcs
    unfold schemaStage at hok
    by_cases hc : a.cols = b.cols
    · by_cases hd : a.dtypes = b.dtypes
      · rw [if_pos ⟨hc, hd⟩] at hok
        cases hok
        simp at hmem
      · rw [if_neg (fun hand => hd hand.2), if_neg (fun hn => hn hc)] at hok
        cases hok
        simp only [List.mem_singleton, Finding.typeMismatch.injEq] at hmem
        subst hmem
        have hin := dtypeDiffCols_subset a.cols a.dtypes b.dtypes c hcs
        exact ⟨hin, hc ▸ hin⟩
    · rw [if_neg (fun hand => hc hand.1), if_pos hc] at hok
      cases hok

/-- Witness for C5: the never-raises direction at identical columns, the
membership facts for the reported column, and the reported-position fact
at concrete dtype lists. -/
theorem claim5_witness :
    (errOf (schemaStage c5FrameA c5FrameA) = none ↔ c5FrameA.cols = c5FrameA.cols) ∧
    ((["a"] : Col) ∈ c5FrameA.cols ∧ (["a"] : Col) ∈ c5FrameA.cols) ∧
    ([["a"], ["b"]] : List Col).get ⟨1, by decide⟩ ∈
      dtypeDiffCols [["a"], ["b"]] ["int64", "int64"] ["int64", "float64"] :=
  ⟨claim5_amended.1 c5FrameA c5FrameA,
   claim5_amended.2.1 c5FrameA
     { c5FrameA with dtypes := ["float64", "int64"] }
     [Finding.typeMismatch [["a"]]] (by decide) [["a"]] (by decide) ["a"] (by decide),
   claim5_amended.2.2 [["a"], ["b"]] ["int64", "int64"] ["int64", "float64"] 1
     (by decide) (by decide) (by decide) (by decide)⟩
